import Mathlib

/-!
Shallow embedding of the `latlon-utils` package (`latlon_utils/__init__.py`)
and proofs about its grid-resolution, aggregation and country-lookup logic.

Numeric values are modelled as rationals (`ℚ`); 1-D numpy arrays as `List ℚ`
acting elementwise; a fancy-indexing `IndexError` as `Option.none`; a raised
exception of a top-level function as `Except.error`; filesystem effects as an
explicit trace of actions.
-/

/-- Left insertion point of `v` in `arr`: the least index `i` with
`v ≤ arr[i]`, or `arr.length` when there is none.  This is the documented
semantics of `np.searchsorted(arr, v)` (default `side='left'`) on a sorted
array, as called in `find_closest`. -/
def searchsorted : List ℚ → ℚ → Nat
  | [], _ => 0
  | a :: rest, v => if v ≤ a then 0 else searchsorted rest v + 1

/-- Embedding of `find_closest` (lines 291-297 of `latlon_utils/__init__.py`),
per query value.  The python code computes `diff = arr[idx] - vals` *before*
clamping `idx == arr.size`, so a value strictly above every entry indexes the
array out of bounds (`IndexError`), modelled as `none`.  Python's `arr[idx-1]`
at `idx = 0` wraps to the last element. -/
def find_closest (arr : List ℚ) (v : ℚ) : Option Nat :=
  let idx := searchsorted arr v
  match arr[idx]? with
  | none => none
  | some ai =>
    let prev := if idx = 0 then arr.getLastD 0 else arr.getD (idx - 1) 0
    let diff := ai - v
    let diffprev := v - prev
    let idx2 := if idx = arr.length then arr.length - 1 else idx
    some (if 0 < idx2 ∧ idx2 < arr.length ∧ diffprev < diff then idx2 - 1 else idx2)

/-- Embedding of the descending-latitude resolution of `get_climate`
(lines 328-329): apply `find_closest` to the reversed axis and convert the
index via `len(axis) - 1 - idx`. -/
def resolve_desc (axis : List ℚ) (v : ℚ) : Option Nat :=
  (find_closest axis.reverse v).map (fun i => axis.length - 1 - i)

/-- Embedding of line 307 of `get_climate`:
`lon = np.where(lon > 180, lon - 360, lon)`, per element. -/
def normalize_lon (lon : ℚ) : ℚ :=
  if 180 < lon then lon - 360 else lon

/-- The monthly column labels of `get_climate` (lines 309-310). -/
def months : List String :=
  ["jan", "feb", "mar", "apr", "mai", "jun", "jul", "aug", "sep",
   "oct", "nov", "dec"]

/-- The full period column labels of `get_climate` (line 312). -/
def cols : List String :=
  months ++ ["djf", "mam", "jja", "son", "ann"]

/-- Arithmetic mean as computed by `pandas.DataFrame.mean(axis=1)` on a row
with no missing values. -/
def mean (xs : List ℚ) : ℚ :=
  xs.sum / xs.length

/-- Embedding of lines 331-339 of `get_climate` for one variable at one grid
cell: the twelve monthly values followed by the derived columns
`djf, mam, jja, son, ann`.  The index selections mirror the label selections
of the code: `djf` from `['jan', 'feb', 'dec']` (positions 0, 1, 11), `mam`
from `['mar', 'apr', 'mai']` (2, 3, 4), `jja` from (5, 6, 7), `son` from
(8, 9, 10) and `ann` from the twelve monthly columns. -/
def seasonal_row (m : List ℚ) : List ℚ :=
  m ++ [mean [m.getD 0 0, m.getD 1 0, m.getD 11 0],
        mean [m.getD 2 0, m.getD 3 0, m.getD 4 0],
        mean [m.getD 5 0, m.getD 6 0, m.getD 7 0],
        mean [m.getD 8 0, m.getD 9 0, m.getD 10 0],
        mean m]

theorem searchsorted_le_length (arr : List ℚ) (v : ℚ) :
    searchsorted arr v ≤ arr.length := by
  induction arr with
  | nil => simp [searchsorted]
  | cons a rest ih =>
    simp only [searchsorted, List.length_cons]
    split
    · exact Nat.zero_le _
    · exact Nat.succ_le_succ ih

theorem lt_of_lt_searchsorted (arr : List ℚ) (v : ℚ) :
    ∀ j, j < searchsorted arr v → arr.getD j 0 < v := by
  induction arr with
  | nil => simp [searchsorted]
  | cons a rest ih =>
    intro j hj
    simp only [searchsorted] at hj
    split at hj
    · omega
    · cases j with
      | zero =>
        simp only [List.getD_cons_zero]
        next h => exact lt_of_not_le h
      | succ k =>
        simp only [List.getD_cons_succ]
        exact ih k (by omega)

theorem le_getD_searchsorted (arr : List ℚ) (v : ℚ)
    (h : searchsorted arr v < arr.length) :
    v ≤ arr.getD (searchsorted arr v) 0 := by
  induction arr with
  | nil => simp at h
  | cons a rest ih =>
    by_cases hva : v ≤ a
    · simp [searchsorted, hva]
    · simp only [searchsorted, hva, if_false, List.length_cons] at h ⊢
      simpa using ih (by omega)

theorem getD_eq_get (l : List ℚ) (i : Nat) (h : i < l.length) :
    l.getD i 0 = l.get ⟨i, h⟩ := by
  simp [List.getD_eq_getElem?_getD, List.getElem?_eq_getElem h]

theorem getLastD_eq_getD (l : List ℚ) (h : l ≠ []) :
    l.getLastD 0 = l.getD (l.length - 1) 0 := by
  rw [List.getLastD_eq_getLast?, List.getLast?_eq_getElem?]
  simp [List.getD_eq_getElem?_getD]

theorem sorted_getD_lt (arr : List ℚ) (hs : List.Sorted (· < ·) arr)
    (i j : Nat) (hij : i < j) (hj : j < arr.length) :
    arr.getD i 0 < arr.getD j 0 := by
  have hi : i < arr.length := lt_trans hij hj
  have h := hs.rel_get_of_lt (a := ⟨i, hi⟩) (b := ⟨j, hj⟩) (by exact hij)
  rw [getD_eq_get arr i hi, getD_eq_get arr j hj]
  exact h

theorem sorted_getD_le (arr : List ℚ) (hs : List.Sorted (· < ·) arr)
    (i j : Nat) (hij : i ≤ j) (hj : j < arr.length) :
    arr.getD i 0 ≤ arr.getD j 0 := by
  rcases eq_or_lt_of_le hij with rfl | h
  · exact le_refl _
  · exact le_of_lt (sorted_getD_lt arr hs i j h hj)

theorem searchsorted_lt_length (arr : List ℚ) (v : ℚ) (hne : arr ≠ [])
    (hhi : v ≤ arr.getLastD 0) : searchsorted arr v < arr.length := by
  have hn : 0 < arr.length := List.length_pos.mpr hne
  by_contra hcon
  have hss_eq : searchsorted arr v = arr.length :=
    le_antisymm (searchsorted_le_length arr v) (not_lt.mp hcon)
  have hlt := lt_of_lt_searchsorted arr v (arr.length - 1) (by omega)
  rw [← getLastD_eq_getD arr hne] at hlt
  linarith

theorem find_closest_eq_of_lt (arr : List ℚ) (v : ℚ)
    (h : searchsorted arr v < arr.length) :
    find_closest arr v = some
      (if 0 < searchsorted arr v ∧ searchsorted arr v < arr.length ∧
          v - (if searchsorted arr v = 0 then arr.getLastD 0
               else arr.getD (searchsorted arr v - 1) 0)
            < arr.getD (searchsorted arr v) 0 - v
       then searchsorted arr v - 1 else searchsorted arr v) := by
  have hget : arr[searchsorted arr v]? = some (arr.getD (searchsorted arr v) 0) := by
    rw [List.getElem?_eq_getElem h, getD_eq_get arr _ h]
    simp
  have hne : ¬ (searchsorted arr v = arr.length) := by omega
  simp only [find_closest, hget, hne, if_false]

/-- Where the boundary faults of `find_closest` do not strike (every query at
or below the greatest axis entry), the returned index is the greatest
minimizer of the distance `|arr[i] - v|`. -/
theorem find_closest_spec (arr : List ℚ) (v : ℚ)
    (hs : List.Sorted (· < ·) arr) (hne : arr ≠ [])
    (hhi : v ≤ arr.getLastD 0) :
    ∃ i, find_closest arr v = some i ∧ i < arr.length ∧
      (∀ j, j < arr.length → |arr.getD i 0 - v| ≤ |arr.getD j 0 - v|) ∧
      (∀ j, j < arr.length → |arr.getD j 0 - v| = |arr.getD i 0 - v| → j ≤ i) := by
  have hn : 0 < arr.length := List.length_pos.mpr hne
  have hss_lt : searchsorted arr v < arr.length := searchsorted_lt_length arr v hne hhi
  have hcur : v ≤ arr.getD (searchsorted arr v) 0 := le_getD_searchsorted arr v hss_lt
  have hfc := find_closest_eq_of_lt arr v hss_lt
  rcases Nat.eq_zero_or_pos (searchsorted arr v) with hz | hpos
  · refine ⟨0, ?_, hn, ?_, ?_⟩
    · rw [hfc, hz]
      simp
    · intro j hj
      have h0j : arr.getD 0 0 ≤ arr.getD j 0 :=
        sorted_getD_le arr hs 0 j (Nat.zero_le j) hj
      rw [hz] at hcur
      rw [abs_of_nonneg (by linarith), abs_of_nonneg (by linarith)]
      linarith
    · intro j hj heq
      by_contra hcon
      have h0j : arr.getD 0 0 < arr.getD j 0 :=
        sorted_getD_lt arr hs 0 j (by omega) hj
      rw [hz] at hcur
      rw [abs_of_nonneg (by linarith), abs_of_nonneg (by linarith)] at heq
      linarith
  · have hprev : arr.getD (searchsorted arr v - 1) 0 < v :=
      lt_of_lt_searchsorted arr v (searchsorted arr v - 1) (by omega)
    have hprev_lt : searchsorted arr v - 1 < arr.length := by omega
    by_cases hc :
        v - arr.getD (searchsorted arr v - 1) 0
          < arr.getD (searchsorted arr v) 0 - v
    · refine ⟨searchsorted arr v - 1, ?_, by omega, ?_, ?_⟩
      · rw [hfc]
        have hzne : ¬ (searchsorted arr v = 0) := by omega
        rw [if_pos ⟨hpos, hss_lt, by rw [if_neg hzne]; exact hc⟩]
      · intro j hj
        rw [abs_of_nonpos (by linarith)]
        rcases le_or_lt j (searchsorted arr v - 1) with hle | hgt
        · have : arr.getD j 0 ≤ arr.getD (searchsorted arr v - 1) 0 :=
            sorted_getD_le arr hs j _ hle hprev_lt
          rw [abs_of_nonpos (by linarith)]
          linarith
        · have hjge : searchsorted arr v ≤ j := by omega
          have : arr.getD (searchsorted arr v) 0 ≤ arr.getD j 0 :=
            sorted_getD_le arr hs _ j hjge hj
          rw [abs_of_nonneg (by linarith)]
          linarith
      · intro j hj heq
        by_contra hcon
        have hjge : searchsorted arr v ≤ j := by omega
        have hmono : arr.getD (searchsorted arr v) 0 ≤ arr.getD j 0 :=
          sorted_getD_le arr hs _ j hjge hj
        rw [abs_of_nonneg (by linarith), abs_of_nonpos (by linarith)] at heq
        linarith
    · refine ⟨searchsorted arr v, ?_, hss_lt, ?_, ?_⟩
      · rw [hfc]
        have hzne : ¬ (searchsorted arr v = 0) := by omega
        rw [if_neg]
        intro hcond
        rw [if_neg hzne] at hcond
        exact hc hcond.2.2
      · intro j hj
        rw [abs_of_nonneg (by linarith)]
        rcases lt_or_le j (searchsorted arr v) with hlt | hge
        · have : arr.getD j 0 ≤ arr.getD (searchsorted arr v - 1) 0 :=
            sorted_getD_le arr hs j _ (by omega) hprev_lt
          rw [abs_of_nonpos (by linarith)]
          linarith
        · have : arr.getD (searchsorted arr v) 0 ≤ arr.getD j 0 :=
            sorted_getD_le arr hs _ j hge hj
          rw [abs_of_nonneg (by linarith)]
          linarith
      · intro j hj heq
        by_contra hcon
        have hmono : arr.getD (searchsorted arr v) 0 < arr.getD j 0 :=
          sorted_getD_lt arr hs _ j (by omega) hj
        rw [abs_of_nonneg (by linarith), abs_of_nonneg (by linarith)] at heq
        linarith

theorem getD_reverse (l : List ℚ) (i : Nat) (h : i < l.length) :
    l.reverse.getD i 0 = l.getD (l.length - 1 - i) 0 := by
  have hrev : i < l.reverse.length := by simpa using h
  rw [getD_eq_get l.reverse i hrev, getD_eq_get l (l.length - 1 - i) (by omega)]
  simp [List.get_eq_getElem, List.getElem_reverse]

/-- C1: for every ascending sorted axis of distinct entries and every query
value within the axis range, `find_closest` returns the index minimizing the
distance to the query; at an exact tie between two adjacent entries the
higher index is returned (formally: the result is the greatest minimizer of
`|arr[i] - v|`). -/
theorem c1_find_closest_nearest (arr : List ℚ) (v : ℚ)
    (hs : List.Sorted (· < ·) arr) (hne : arr ≠ [])
    (hlo : arr.getD 0 0 ≤ v) (hhi : v ≤ arr.getLastD 0) :
    ∃ i, find_closest arr v = some i ∧ i < arr.length ∧
      (∀ j, j < arr.length → |arr.getD i 0 - v| ≤ |arr.getD j 0 - v|) ∧
      (∀ j, j < arr.length → |arr.getD j 0 - v| = |arr.getD i 0 - v| → j ≤ i) :=
  find_closest_spec arr v hs hne hhi

theorem c1_witness :
    ∃ i, find_closest [(0:ℚ), 2] 1 = some i ∧ i < ([(0:ℚ), 2]).length ∧
      (∀ j, j < ([(0:ℚ), 2]).length →
        |([(0:ℚ), 2]).getD i 0 - 1| ≤ |([(0:ℚ), 2]).getD j 0 - 1|) ∧
      (∀ j, j < ([(0:ℚ), 2]).length →
        |([(0:ℚ), 2]).getD j 0 - 1| = |([(0:ℚ), 2]).getD i 0 - 1| → j ≤ i) :=
  c1_find_closest_nearest [(0:ℚ), 2] 1 (by decide) (by decide) (by decide)
    (by decide)

/-- C2: the claim asserts that out-of-range queries never raise and clamp to
the nearest edge index.  The code computes `arr[idx]` *before* clamping
`idx == arr.size`, so a query strictly above every axis entry raises an
uncaught `IndexError` (modelled by `none`); a query below the range does
clamp to index 0 as claimed. -/
theorem c2_above_range_raises :
    find_closest [(0:ℚ), 1] 2 = none ∧ find_closest [(0:ℚ), 1] (-1) = some 0 := by
  constructor <;> decide

/-- C3 counterexample: on the descending axis `[1, 0]` with query `2`, the
reversed-axis resolution of `get_climate` yields no cell at all (the
underlying `find_closest` raises), although the physical cell at index 0
(entry `1`) is the nearest one; so the claim fails for queries above the
axis maximum. -/
theorem c3_counterexample :
    resolve_desc [(1:ℚ), 0] 2 = none ∧
    |([(1:ℚ), 0]).getD 0 0 - 2| ≤ |([(1:ℚ), 0]).getD 1 0 - 2| := by
  constructor
  · decide
  · have h1 : ([(1:ℚ), 0]).getD 0 0 = 1 := rfl
    have h2 : ([(1:ℚ), 0]).getD 1 0 = 0 := rfl
    rw [h1, h2, abs_of_nonpos (by norm_num), abs_of_nonpos (by norm_num)]
    norm_num

/-- C3 (amended): for every strictly descending latitude axis and every query
value not above the axis maximum, applying `find_closest` to the reversed
(ascending) axis and converting the result via `len - 1 - idx` yields an
index of a physically nearest axis entry. -/
theorem c3_descending_equivalence (axis : List ℚ) (v : ℚ)
    (hs : List.Sorted (· < ·) axis.reverse) (hne : axis ≠ [])
    (hhi : v ≤ axis.getD 0 0) :
    ∃ i, resolve_desc axis v = some i ∧ i < axis.length ∧
      ∀ j, j < axis.length → |axis.getD i 0 - v| ≤ |axis.getD j 0 - v| := by
  have hne2 : axis.reverse ≠ [] := by simpa using hne
  have hn : 0 < axis.length := List.length_pos.mpr hne
  have hlen : axis.reverse.length = axis.length := List.length_reverse axis
  have hlast : axis.reverse.getLastD 0 = axis.getD 0 0 := by
    rw [getLastD_eq_getD axis.reverse hne2, hlen,
        getD_reverse axis (axis.length - 1) (by omega)]
    congr 1
    omega
  obtain ⟨iRev, hfc, hiRev, hmin, _⟩ :=
    find_closest_spec axis.reverse v hs hne2 (by rw [hlast]; exact hhi)
  rw [hlen] at hiRev
  refine ⟨axis.length - 1 - iRev, ?_, by omega, ?_⟩
  · rw [resolve_desc, hfc]
    rfl
  · intro j hj
    have hcell : axis.reverse.getD iRev 0 = axis.getD (axis.length - 1 - iRev) 0 :=
      getD_reverse axis iRev hiRev
    have hj2 : axis.reverse.getD (axis.length - 1 - j) 0 = axis.getD j 0 := by
      rw [getD_reverse axis (axis.length - 1 - j) (by omega)]
      congr 1
      omega
    have := hmin (axis.length - 1 - j) (by omega)
    rw [hcell, hj2] at this
    exact this

theorem c3_witness :
    ∃ i, resolve_desc [(1:ℚ), 0] (3/5) = some i ∧ i < ([(1:ℚ), 0]).length ∧
      ∀ j, j < ([(1:ℚ), 0]).length →
        |([(1:ℚ), 0]).getD i 0 - 3/5| ≤ |([(1:ℚ), 0]).getD j 0 - 3/5| :=
  c3_descending_equivalence [(1:ℚ), 0] (3/5) (by decide) (by decide)
    (by norm_num [List.getD_cons_zero])

/-- C4: for monthly values `m_jan .. m_dec`, the derived columns of a
`get_climate` result row are the unweighted arithmetic means
`djf = mean(dec, jan, feb)`, `mam = mean(mar, apr, mai)`,
`jja = mean(jun, jul, aug)`, `son = mean(sep, oct, nov)` and
`ann = mean` of all twelve monthly values.  Positions 12..16 of
`seasonal_row` are the columns `djf, mam, jja, son, ann`. -/
theorem c4_seasonal_means (a b c d e f g h i j k l : ℚ) :
    (seasonal_row [a, b, c, d, e, f, g, h, i, j, k, l]).getD 12 0 = (l + a + b) / 3 ∧
    (seasonal_row [a, b, c, d, e, f, g, h, i, j, k, l]).getD 13 0 = (c + d + e) / 3 ∧
    (seasonal_row [a, b, c, d, e, f, g, h, i, j, k, l]).getD 14 0 = (f + g + h) / 3 ∧
    (seasonal_row [a, b, c, d, e, f, g, h, i, j, k, l]).getD 15 0 = (i + j + k) / 3 ∧
    (seasonal_row [a, b, c, d, e, f, g, h, i, j, k, l]).getD 16 0 =
      (a + b + c + d + e + f + g + h + i + j + k + l) / 12 := by
  refine ⟨?_, ?_, ?_, ?_, ?_⟩ <;>
    · simp [seasonal_row, mean]
      ring

/-- C10: the twelve monthly column labels of `get_climate` are, in order,
`jan, feb, mar, apr, mai, jun, jul, aug, sep, oct, nov, dec` — the May
column is labelled `mai`, not `may`, so `may` is not among the period
columns and a column access under the label `may` fails. -/
theorem c10_month_labels :
    months = ["jan", "feb", "mar", "apr", "mai", "jun", "jul", "aug", "sep",
              "oct", "nov", "dec"] ∧
    months.getD 4 ("") = "mai" ∧ ¬ ("may" ∈ cols) :=
  ⟨rfl, rfl, by decide⟩

/-- A boundary feature as consumed by `get_country`: a country name (the
`ADMIN` property) and its geometry, modelled extensionally by the
containment test that `shapely`'s prepared geometry provides.  A point is a
pair `(x, y) = (lon, lat)`. -/
abbrev Feature : Type := String × ((ℚ × ℚ) → Bool)

/-- Embedding of lines 125-129 of `get_country`: the `countries` python dict
built by inserting each feature keyed by its country name.  A repeated key
overwrites the stored geometry but keeps its original position, as a python
dict does. -/
def dict_insert (d : List Feature) (k : String) (g : (ℚ × ℚ) → Bool) :
    List Feature :=
  if d.any (fun p => p.1 = k) then
    d.map (fun p => if p.1 = k then (k, g) else p)
  else d ++ [(k, g)]

/-- The `countries` dict of `get_country` built from the feature list of the
loaded boundary file. -/
def build_countries (features : List Feature) : List Feature :=
  features.foldl (fun d f => dict_insert d f.1 f.2) []

/-- Embedding of line 132 of `get_country`: `point = Point(lon, lat)` — the
query point is built from the *raw* longitude, with no normalization. -/
def get_country_point (lat lon : ℚ) : ℚ × ℚ :=
  (lon, lat)

/-- Embedding of the containment loop of `get_country` (lines 133-137): test
the point against every stored geometry in order and return the first
containing country name, or the sentinel value on fall-through. -/
def first_containing : List Feature → (ℚ × ℚ) → String
  | [], _ => "unknown"
  | c :: rest, pt => if c.2 pt then c.1 else first_containing rest pt

/-- The per-point country lookup of `get_country` (lines 131-137). -/
def country_for (countries : List Feature) (lat lon : ℚ) : String :=
  first_containing countries (get_country_point lat lon)

theorem first_containing_eq_find (cs : List Feature) (pt : ℚ × ℚ) :
    first_containing cs pt = (cs.find? (fun c => c.2 pt)).elim "unknown" Prod.fst := by
  induction cs with
  | nil => rfl
  | cons c rest ih =>
    by_cases hc : c.2 pt
    · simp [first_containing, hc, List.find?_cons_of_pos]
    · simp only [first_containing, hc, if_false, Bool.false_eq_true]
      rw [List.find?_cons_of_neg _ (by simpa using hc)]
      exact ih

/-- C7: for every query point, `get_country` tests containment against every
entry of the loaded boundary collection (the `countries` dict built from the
feature list) in collection order and returns the country name of the first
containing geometry; when no geometry contains the point the result is the
sentinel string value `unknown`, not an error (the lookup is a total
function into `String`). -/
theorem c7_first_containing_country (features : List Feature) (lat lon : ℚ) :
    country_for (build_countries features) lat lon =
      ((build_countries features).find?
        (fun c => c.2 (get_country_point lat lon))).elim "unknown" Prod.fst :=
  first_containing_eq_find (build_countries features) (get_country_point lat lon)

/-- Filesystem effects performed by the library, as an explicit trace:
existence checks (`osp.exists`), the three download paths of
`get_data_file`, and opening a data file for reading. -/
inductive FSAct where
  | stat (path : String)
  | downloadGeo
  | downloadWC (fname : String)
  | downloadNE
  | openFile (path : String)
deriving DecidableEq

/-- Exceptions raised by the embedded functions: the `AssertionError` of the
`assert np.shape(lat) == np.shape(lon)` checks (the spec's
`InputShapeMismatch`), the `IndexError` of `find_closest` on values above
the axis range, and the `ValueError` of `get_data_file` for an unknown
missing file. -/
inductive LLError where
  | shapeMismatch
  | indexError
  | fileNotFound (fname : String)
deriving DecidableEq

/-- The keys of the `worldclim_variables` dict (lines 16-24): the supported
WorldClim variable names. -/
def worldclim_variables : List String :=
  ["tmin", "tmax", "tavg", "prec", "srad", "wind", "vapr"]

/-- The available WorldClim resolutions (line 27). -/
def worldclim_resolutions : List String :=
  ["10m", "5m", "2.5m", "30s"]

/-- The file names `'{}_{}.nc'.format(v, r)` for
`product(worldclim_variables, worldclim_resolutions)` as enumerated on
lines 77-79 of `get_data_file`. -/
def wc_fnames : List String :=
  (worldclim_variables.map
    (fun v => worldclim_resolutions.map (fun r => v ++ "_" ++ r ++ ".nc"))).flatten

/-- Embedding of `get_data_file` (lines 63-89): join the data directory and
file name, check existence on disk, download known missing files, and raise
`ValueError` for an unknown missing file.  `exists_fn` abstracts the state
of the filesystem seen by `osp.exists`. -/
def get_data_file_model (exists_fn : String → Bool) (data_dir fname : String) :
    Except LLError String × List FSAct :=
  let ret := data_dir ++ "/" ++ fname
  if exists_fn ret then (Except.ok ret, [FSAct.stat ret])
  else if fname = "countries.geojson" then
    (Except.ok ret, [FSAct.stat ret, FSAct.downloadGeo])
  else if wc_fnames.contains fname then
    (Except.ok ret, [FSAct.stat ret, FSAct.downloadWC fname])
  else if fname = "ne_10m_admin_0_countries.shp" then
    (Except.ok ret, [FSAct.stat ret, FSAct.downloadNE])
  else (Except.error (LLError.fileNotFound fname), [FSAct.stat ret])

/-- Embedding of `get_country` (lines 92-142) on sequence input: assert equal
shapes, resolve and open the boundary file, build the `countries` dict and
look every point up in order. -/
def get_country_model (exists_fn : String → Bool) (data_dir : String)
    (features : List Feature) (lat lon : List ℚ) :
    Except LLError (List String) × List FSAct :=
  if lat.length = lon.length then
    let df := get_data_file_model exists_fn data_dir ("countries.geojson")
    match df.1 with
    | Except.error e => (Except.error e, df.2)
    | Except.ok p =>
      (Except.ok ((lat.zip lon).map
          (fun q => country_for (build_countries features) q.1 q.2)),
       df.2 ++ [FSAct.openFile p])
  else (Except.error LLError.shapeMismatch, [])

/-- A WorldClim raster file as read by `get_climate`: a latitude axis (as
stored, descending), a longitude axis (ascending) and the 3-D variable array
indexed `[month, lat-index, lon-index]`. -/
structure Raster where
  lat_axis : List ℚ
  lon_axis : List ℚ
  data : Nat → Nat → Nat → ℚ

/-- The twelve monthly values of one variable at the grid cell resolved for
`(lat, lon)` by `get_climate` (lines 327-331): `find_closest` on the
longitude axis, `find_closest` on the reversed latitude axis converted via
`shape - 1 - idx`, then the column `nco.variables[v][:, j, k]`. -/
def variable_months (r : Raster) (lat lon : ℚ) : Option (List ℚ) :=
  match find_closest r.lon_axis lon, resolve_desc r.lat_axis lat with
  | some il, some ila => some ((List.range 12).map (fun mo => r.data mo ila il))
  | _, _ => none

/-- Elementwise evaluation over a list that propagates a raised exception
(`none`), as a numpy/pandas loop that stops at the first raised error. -/
def map_option {α β : Type} (f : α → Option β) : List α → Option (List β)
  | [] => some []
  | a :: rest =>
    match f a, map_option f rest with
    | some b, some bs => some (b :: bs)
    | _, _ => none

/-- One result row of `get_climate` for one point: the 17 period columns for
each requested variable, variable-major (lines 324-339). -/
def point_row (raster_of : String → Raster) (vars : List String)
    (lat lon : ℚ) : Option (List ℚ) :=
  (map_option
    (fun v => (variable_months (raster_of v) lat lon).map seasonal_row)
    vars).map List.flatten

/-- The `data_files` list comprehension of `get_climate` (line 322): resolve
every backing file through `get_data_file` before any file is opened,
propagating the first raised error. -/
def resolve_files (exists_fn : String → Bool) (data_dir : String) :
    List String → Except LLError (List String) × List FSAct
  | [] => (Except.ok [], [])
  | f :: rest =>
    let r := get_data_file_model exists_fn data_dir f
    match r.1 with
    | Except.error e => (Except.error e, r.2)
    | Except.ok p =>
      let rr := resolve_files exists_fn data_dir rest
      match rr.1 with
      | Except.error e => (Except.error e, r.2 ++ rr.2)
      | Except.ok ps => (Except.ok (p :: ps), r.2 ++ rr.2)

/-- Embedding of `get_climate` (lines 185-342) on sequence input: assert
equal shapes, normalize longitudes `> 180`, resolve all backing files, open
them, resolve every point to a grid cell, read its monthly values and append
the derived seasonal and annual columns.  `raster_of` abstracts the content
of the netCDF file of each variable. -/
def get_climate_model (exists_fn : String → Bool) (data_dir : String)
    (raster_of : String → Raster) (vars : List String) (res : String)
    (lat lon : List ℚ) : Except LLError (List (List ℚ)) × List FSAct :=
  if lat.length = lon.length then
    let lon2 := lon.map normalize_lon
    let files := resolve_files exists_fn data_dir
      (vars.map (fun v => v ++ "_" ++ res ++ ".nc"))
    match files.1 with
    | Except.error e => (Except.error e, files.2)
    | Except.ok paths =>
      let acts := files.2 ++ paths.map FSAct.openFile
      match map_option (fun q => point_row raster_of vars q.1 q.2)
          (lat.zip lon2) with
      | some rows => (Except.ok rows, acts)
      | none => (Except.error LLError.indexError, acts)
  else (Except.error LLError.shapeMismatch, [])

/-- Embedding of the scalar-input path of `get_climate` (lines 299-303 and
340-341): a scalar coordinate is wrapped into one-element sequences and the
result is squeezed to its first row (`ret.T.iloc[:, 0]`). -/
def get_climate_scalar (exists_fn : String → Bool) (data_dir : String)
    (raster_of : String → Raster) (vars : List String) (res : String)
    (lat lon : ℚ) : Except LLError (List ℚ) × List FSAct :=
  let r := get_climate_model exists_fn data_dir raster_of vars res [lat] [lon]
  (r.1.map (fun rows => rows.getD 0 []), r.2)

/-- A minimal one-cell raster whose values are all zero, used as concrete
test data. -/
def triv_raster : Raster :=
  ⟨[0], [0], fun _ _ _ => 0⟩

deriving instance DecidableEq for Except

/-- C5: whenever the lat and lon inputs have different shapes, both
`get_country` and `get_climate` raise the shape-mismatch assertion error,
and the returned filesystem trace is empty: the error precedes any file
being checked, opened, read or downloaded. -/
theorem c5_shape_mismatch_no_io
    (exists_fn : String → Bool) (data_dir : String) (features : List Feature)
    (raster_of : String → Raster) (vars : List String) (res : String)
    (lat lon : List ℚ) (h : lat.length ≠ lon.length) :
    get_country_model exists_fn data_dir features lat lon =
      (Except.error LLError.shapeMismatch, []) ∧
    get_climate_model exists_fn data_dir raster_of vars res lat lon =
      (Except.error LLError.shapeMismatch, []) := by
  constructor
  · simp [get_country_model, h]
  · simp [get_climate_model, h]

theorem c5_witness :
    get_country_model (fun _ => true) ("d") [] [(0:ℚ)] [] =
      (Except.error LLError.shapeMismatch, []) ∧
    get_climate_model (fun _ => true) ("d") (fun _ => triv_raster)
      [("tavg")] ("10m") [(0:ℚ)] [] =
      (Except.error LLError.shapeMismatch, []) :=
  c5_shape_mismatch_no_io (fun _ => true) ("d") [] (fun _ => triv_raster)
    [("tavg")] ("10m") [(0:ℚ)] [] (by decide)

/-- C6 counterexample: longitude exactly 180 is *not* normalized by
`get_climate` (the condition of line 307 is strictly `lon > 180`, so the
claimed range `[180, 360)` is wrong at its left edge), and `get_country`
performs no normalization at all: with a single geometry containing exactly
the points at `x = -170`, the query at raw longitude 190 — which the claim
says is resolved at `190 - 360 = -170` — returns `unknown`. -/
theorem c6_counterexample :
    normalize_lon 180 = 180 ∧
    country_for [(("A"), fun p => decide (p.1 = -170))] 0 190 = "unknown" := by
  constructor
  · norm_num [normalize_lon]
  · decide

/-- C6 (amended): `get_climate` normalizes longitude values strictly greater
than 180 by subtracting 360 before the resolution step; `get_country`
applies no normalization — its query point is built directly from the raw
longitude. -/
theorem c6_normalization (lat lon : ℚ) (h : 180 < lon) :
    normalize_lon lon = lon - 360 ∧ get_country_point lat lon = (lon, lat) := by
  constructor
  · simp [normalize_lon, h]
  · rfl

theorem c6_witness :
    normalize_lon 190 = 190 - 360 ∧ get_country_point 0 190 = (190, 0) :=
  c6_normalization 0 190 (by norm_num)

theorem model_eval_triv (v : String) :
    get_climate_model (fun _ => true) ("d") (fun _ => triv_raster) [v]
      ("10m") [0] [0] =
      (Except.ok [[0, 0, 0, 0, 0, 0, 0, 0, 0, 0, 0, 0, 0, 0, 0, 0, 0]],
       [FSAct.stat (("d") ++ "/" ++ (v ++ "_" ++ ("10m") ++ ".nc")),
        FSAct.openFile (("d") ++ "/" ++ (v ++ "_" ++ ("10m") ++ ".nc"))]) := by
  have hvm : variable_months triv_raster 0 0 =
      some [0, 0, 0, 0, 0, 0, 0, 0, 0, 0, 0, 0] := by decide
  have hsr : seasonal_row [0, 0, 0, 0, 0, 0, 0, 0, 0, 0, 0, 0] =
      [0, 0, 0, 0, 0, 0, 0, 0, 0, 0, 0, 0, 0, 0, 0, 0, 0] := by
    simp [seasonal_row, mean]
  have hnorm : normalize_lon 0 = 0 := by norm_num [normalize_lon]
  simp [get_climate_model, resolve_files, get_data_file_model, point_row,
        map_option, hvm, hsr, hnorm]

/-- C8 counterexample: requesting the unsupported variable name `foo` does
not fail at all when a file named `foo_10m.nc` is present in the data
directory — `get_climate` happily returns a result table; and in every case
the on-disk existence check (a file access) precedes any error that
`get_data_file` could raise. -/
theorem c8_counterexample :
    (get_climate_model (fun _ => true) ("d") (fun _ => triv_raster)
      [("foo")] ("10m") [0] [0]).1 =
      Except.ok [[0, 0, 0, 0, 0, 0, 0, 0, 0, 0, 0, 0, 0, 0, 0, 0, 0]] := by
  rw [model_eval_triv ("foo")]

/-- C8 (amended): requesting a variable name outside the supported set (its
file name is none of the known data-file names) fails with the `ValueError`
of `get_data_file` only when the file is absent from the data directory, and
the failure comes *after* the existence check on disk — the trace of the
failing call is exactly one `stat` of the missing path, so the error is not
raised before file access. -/
theorem c8_unknown_variable (exists_fn : String → Bool) (data_dir : String)
    (raster_of : String → Raster) (v res : String) (lat lon : List ℚ)
    (hlen : lat.length = lon.length)
    (h1 : v ++ "_" ++ res ++ ".nc" ≠ "countries.geojson")
    (h2 : ¬ (v ++ "_" ++ res ++ ".nc" ∈ wc_fnames))
    (h3 : v ++ "_" ++ res ++ ".nc" ≠ "ne_10m_admin_0_countries.shp")
    (hex : exists_fn (data_dir ++ "/" ++ (v ++ "_" ++ res ++ ".nc")) = false) :
    get_climate_model exists_fn data_dir raster_of [v] res lat lon =
      (Except.error (LLError.fileNotFound (v ++ "_" ++ res ++ ".nc")),
       [FSAct.stat (data_dir ++ "/" ++ (v ++ "_" ++ res ++ ".nc"))]) := by
  simp [get_climate_model, hlen, resolve_files, get_data_file_model, hex, h1,
        h2, h3]

theorem c8_witness :
    get_climate_model (fun _ => false) ("d") (fun _ => triv_raster)
      [("foo")] ("10m") [0] [0] =
      (Except.error (LLError.fileNotFound ("foo" ++ "_" ++ "10m" ++ ".nc")),
       [FSAct.stat ("d" ++ "/" ++ ("foo" ++ "_" ++ "10m" ++ ".nc"))]) :=
  c8_unknown_variable (fun _ => false) ("d") (fun _ => triv_raster) ("foo")
    ("10m") [0] [0] rfl (by decide) (by decide) (by decide) rfl

/-- C9: when the batch form of `get_climate` on the one-element sequences
`[lat]`, `[lon]` returns a table, the scalar form on `(lat, lon)` returns
exactly row 0 of that table (the squeeze `ret.T.iloc[:, 0]`). -/
theorem c9_scalar_squeeze (exists_fn : String → Bool) (data_dir : String)
    (raster_of : String → Raster) (vars : List String) (res : String)
    (lat lon : ℚ) (rows : List (List ℚ))
    (h : (get_climate_model exists_fn data_dir raster_of vars res
            [lat] [lon]).1 = Except.ok rows) :
    (get_climate_scalar exists_fn data_dir raster_of vars res lat lon).1 =
      Except.ok (rows.getD 0 []) := by
  simp [get_climate_scalar, h, Except.map]

theorem c9_witness :
    (get_climate_scalar (fun _ => true) ("d") (fun _ => triv_raster)
      [("tavg")] ("10m") 0 0).1 =
      Except.ok
        (([[0, 0, 0, 0, 0, 0, 0, 0, 0, 0, 0, 0, 0, 0, 0, 0, 0]] :
            List (List ℚ)).getD 0 []) :=
  c9_scalar_squeeze (fun _ => true) ("d") (fun _ => triv_raster) [("tavg")]
    ("10m") 0 0 [[0, 0, 0, 0, 0, 0, 0, 0, 0, 0, 0, 0, 0, 0, 0, 0, 0]]
    (by rw [model_eval_triv ("tavg")])
